import Mathlib

/-!
Verification of the chunked ingestion engine of UCLDashboard
(`src/common/controllers/data_ingestion.py` and its collaborators
`metadata_controller.py`, `player_ids_generator.py`, `pipeline_report.py`)
against the natural-language specification.

The Python code is shallowly embedded: pandas dataframes become lists of
rows over an explicit column list, the DuckDB store becomes an explicit
`EngineState`, exceptions become `Option`/sum results, and the progress
file becomes an `Option Nat` field of the state.
-/

namespace UCL

/-- A cell value of a dataframe.  String cells carry their unicode
codepoints explicitly, so that representability in UTF-8 is expressible
(Python `str` may hold lone surrogates, which cannot be UTF-8 encoded). -/
inductive Value where
  | int : Int → Value
  | str : List Nat → Value
  | null : Value
deriving DecidableEq, Repr

/-- A dataframe column: its name and its pandas dtype name
(e.g. "int64", "object"), as produced by `pd.read_csv(...).dtypes`. -/
structure ColumnSpec where
  name : String
  dtype : String
deriving DecidableEq, Repr

/-- A pandas dataframe: a list of columns and a list of rows, each row a
list of cells positionally aligned with the columns. -/
structure DataFrame where
  cols : List ColumnSpec
  rows : List (List Value)
deriving DecidableEq, Repr

/-- Position of a named column, as used by the SQL statements that
reference columns by name. -/
def DataFrame.colIndex (df : DataFrame) (name : String) : Option Nat :=
  df.cols.findIdx? (fun c => c.name == name)

/-- `chunk[column].dtype.name` of `_validate_chunk_against_schema`:
the dtype of a named column, when present. -/
def DataFrame.dtypeOf (df : DataFrame) (name : String) : Option String :=
  (df.cols.find? (fun c => c.name == name)).map (fun c => c.dtype)

/-- `chunk[column].head(1)` of `_validate_chunk_against_schema`: the first
cell of a named column, the row sample attached to a schema error. -/
def DataFrame.colHead (df : DataFrame) (name : String) : Option Value :=
  match df.colIndex name, df.rows with
  | some i, r :: _ => r.get? i
  | _, _ => none

/-- A cell is representable in UTF-8 exactly when it is not a string, or is
a string whose codepoints are scalar values (no lone surrogates). -/
def utf8Representable (v : Value) : Bool :=
  match v with
  | .str cps => cps.all (fun c => decide (c < 0xD800) || (decide (0xDFFF < c) && decide (c < 0x110000)))
  | _ => true

/-! ## Chunk partitioning

`_ingest_chunks_in_db` computes
`chunks_total = int(rows / chunk_size) if rows > chunk_size else 1`
and then calls `np.array_split(dataframe, chunks_total)`.
`np.array_split` of a length-`L` sequence into `n` parts returns
`L % n` parts of size `L / n + 1` followed by `n - L % n` parts of size
`L / n`. -/

/-- The part sizes produced by `np.array_split` on a length-`L` input
split into `n` parts. -/
def arraySplitSizes (L n : Nat) : List Nat :=
  List.replicate (L % n) (L / n + 1) ++ List.replicate (n - L % n) (L / n)

/-- Cut a list into consecutive parts of the given sizes. -/
def splitBySizes {α : Type} : List α → List Nat → List (List α)
  | _, [] => []
  | xs, k :: ks => xs.take k :: splitBySizes (xs.drop k) ks

/-- `np.array_split(xs, n)`. -/
def arraySplit {α : Type} (xs : List α) (n : Nat) : List (List α) :=
  splitBySizes xs (arraySplitSizes xs.length n)

/-- `chunks_total` of `_ingest_chunks_in_db` (line 72):
`int(rows_lenght / self.chunk_size) if rows_lenght > self.chunk_size else 1`. -/
def chunksTotal (rowsLength chunkSize : Nat) : Nat :=
  if chunkSize < rowsLength then rowsLength / chunkSize else 1

theorem splitBySizes_length {α : Type} (ks : List Nat) (xs : List α) :
    (splitBySizes xs ks).length = ks.length := by
  induction ks generalizing xs with
  | nil => rfl
  | cons k ks ih => simp [splitBySizes, ih]

theorem arraySplitSizes_length (L n : Nat) (hn : 0 < n) :
    (arraySplitSizes L n).length = n := by
  have h := Nat.mod_lt L hn
  simp [arraySplitSizes]
  omega

theorem arraySplitSizes_sum (L n : Nat) (hn : 0 < n) :
    (arraySplitSizes L n).sum = L := by
  have hlt : L % n < n := Nat.mod_lt L hn
  have hdm : n * (L / n) + L % n = L := Nat.div_add_mod L n
  simp only [arraySplitSizes, List.sum_append, List.sum_replicate, smul_eq_mul]
  have : (n - L % n) * (L / n) = n * (L / n) - (L % n) * (L / n) :=
    Nat.sub_mul _ _ _
  rw [this]
  have hle : (L % n) * (L / n) ≤ n * (L / n) :=
    Nat.mul_le_mul_right _ (Nat.le_of_lt hlt)
  have expand : (L % n) * (L / n + 1) = (L % n) * (L / n) + L % n := by ring
  omega

theorem splitBySizes_flatten {α : Type} (ks : List Nat) (xs : List α) :
    (splitBySizes xs ks).flatten = xs.take ks.sum := by
  induction ks generalizing xs with
  | nil => simp [splitBySizes]
  | cons k ks ih =>
      simp only [splitBySizes, List.flatten_cons, List.sum_cons, ih]
      rw [List.take_add]

theorem splitBySizes_map_length {α : Type} (ks : List Nat) (xs : List α)
    (h : ks.sum ≤ xs.length) :
    (splitBySizes xs ks).map List.length = ks := by
  induction ks generalizing xs with
  | nil => rfl
  | cons k ks ih =>
      simp only [List.sum_cons] at h
      have hk : k ≤ xs.length := le_trans (Nat.le_add_right _ _) h
      have hrest : ks.sum ≤ (xs.drop k).length := by
        simp [List.length_drop]; omega
      simp [splitBySizes, List.length_take, Nat.min_eq_left hk, ih _ hrest]

theorem arraySplit_length {α : Type} (xs : List α) (n : Nat) (hn : 0 < n) :
    (arraySplit xs n).length = n := by
  rw [arraySplit, splitBySizes_length, arraySplitSizes_length _ _ hn]

theorem arraySplit_flatten {α : Type} (xs : List α) (n : Nat) (hn : 0 < n) :
    (arraySplit xs n).flatten = xs := by
  rw [arraySplit, splitBySizes_flatten, arraySplitSizes_sum _ _ hn, List.take_length]

theorem arraySplit_map_length {α : Type} (xs : List α) (n : Nat) (hn : 0 < n) :
    (arraySplit xs n).map List.length = arraySplitSizes xs.length n := by
  rw [arraySplit, splitBySizes_map_length]
  rw [arraySplitSizes_sum _ _ hn]

theorem mem_arraySplitSizes (L n : Nat) (k : Nat)
    (h : k ∈ arraySplitSizes L n) : k = L / n ∨ k = L / n + 1 := by
  simp only [arraySplitSizes, List.mem_append, List.mem_replicate] at h
  rcases h with h | h
  · exact Or.inr h.2
  · exact Or.inl h.2

theorem chunksTotal_pos (R C : Nat) (hC : 0 < C) : 0 < chunksTotal R C := by
  unfold chunksTotal
  split
  · exact Nat.div_pos (Nat.le_of_lt (by assumption)) hC
  · exact Nat.one_pos

/-! ## Dropping the `serial` column

`_ingest_chunks_in_db` lines 76-77:
`if 'serial' in dataframe.columns: dataframe = dataframe.drop(columns=['serial'])`. -/

/-- `dataframe.drop(columns=["serial"])`: removes the `serial` column and
the corresponding cell of every row. -/
def dropSerialColumn (df : DataFrame) : DataFrame :=
  { cols := df.cols.filter (fun c => !(c.name == "serial"))
    rows := df.rows.map (fun r =>
      ((r.zip df.cols).filter (fun p => !(p.2.name == "serial"))).map Prod.fst) }

/-- The guarded drop of `_ingest_chunks_in_db`: only drops when a column
named `serial` is present. -/
def dropSerialIfPresent (df : DataFrame) : DataFrame :=
  if df.cols.any (fun c => c.name == "serial") then dropSerialColumn df else df

theorem dropSerialIfPresent_cols (df : DataFrame) :
    (dropSerialIfPresent df).cols = df.cols.filter (fun c => !(c.name == "serial")) := by
  unfold dropSerialIfPresent
  split
  · rfl
  · rename_i h
    have hall : ∀ c ∈ df.cols, !(c.name == "serial") := by
      intro c hc
      by_contra hne
      exact h (List.any_eq_true.mpr ⟨c, hc, by simpa using hne⟩)
    exact (List.filter_eq_self.mpr hall).symm

/-! ## Report and error entries (`pipeline_report.py`) -/

/-- One structured error entry of `PipelineReport.errors`:
`{module, chunk_id, error_msg, row_sample}`.  The row sample, when present,
is the first cell of the offending column (`chunk[column].head(1)`). -/
structure ErrorEntry where
  module : String
  chunk_id : Nat
  error_msg : String
  row_sample : Option Value
deriving DecidableEq, Repr

/-- The statistics fields of `PipelineReport` that the ingestion engine
mutates.  `duplicate_imported_rows` is the attribute set dynamically by the
chunk-level `AlreadyImportedError` handler (it is not a declared dataclass
field, but Python accepts the assignment). -/
structure PipelineReport where
  total_chunks : Nat
  successful_chunks : Nat
  failed_chunks : Nat
  total_rows : Nat
  inserted_rows : Nat
  skipped_rows : Nat
  errors : List ErrorEntry
  duplicate_import : Bool
  duplicate_imported_rows : Bool
deriving DecidableEq, Repr

/-- A freshly constructed report (all dataclass defaults). -/
def initReport : PipelineReport :=
  { total_chunks := 0, successful_chunks := 0, failed_chunks := 0
    total_rows := 0, inserted_rows := 0, skipped_rows := 0
    errors := [], duplicate_import := false, duplicate_imported_rows := false }

/-! ## Schema handling -/

/-- The `type_mapping` dict of `_get_existing_table_schema`, applied with
`type_mapping.get(col_type, col_type)`. -/
def typeMapping (duckType : String) : String :=
  if duckType = "INTEGER" then "int64"
  else if duckType = "BIGINT" then "int64"
  else if duckType = "DOUBLE" then "float64"
  else if duckType = "VARCHAR" then "object"
  else if duckType = "BOOLEAN" then "bool"
  else if duckType = "DATE" then "datetime64[ns]"
  else if duckType = "TIMESTAMP" then "datetime64[ns]"
  else duckType

/-- DuckDB column type declared for a pandas dtype when a table is created
from a registered dataframe (`CREATE TABLE ... AS SELECT * FROM chunk`).
Models the duckdb/pandas interop mapping. -/
def pandasToDuck (dtype : String) : String :=
  if dtype = "int64" then "BIGINT"
  else if dtype = "float64" then "DOUBLE"
  else if dtype = "object" then "VARCHAR"
  else if dtype = "bool" then "BOOLEAN"
  else if dtype = "datetime64[ns]" then "TIMESTAMP"
  else "VARCHAR"

/-- The semantic type vocabulary of the specification (§3
SchemaDescriptor: integer, float, string, boolean, datetime).  Used only
to state the claim that validation compares semantic categories rather
than exact width; the source compares exact dtype names. -/
def semanticCategory (dtype : String) : String :=
  if dtype = "int64" ∨ dtype = "int32" ∨ dtype = "int16" then "integer"
  else if dtype = "float64" ∨ dtype = "float32" then "float"
  else if dtype = "object" then "string"
  else if dtype = "bool" then "boolean"
  else if dtype = "datetime64[ns]" then "datetime"
  else dtype

/-- `_validate_chunk_against_schema` (data_ingestion.py lines 241-270):
iterate over the schema dict; for each column also present in the chunk,
compare the chunk dtype name with the expected dtype name by exact string
equality; on the first mismatch build the error entry (appended to the
report by the caller in this embedding) and raise `ValueError`. -/
def validateChunkAgainstSchema (chunk : DataFrame)
    (schema : List (String × String)) (chunkIndex : Nat) : Option ErrorEntry :=
  match schema with
  | [] => none
  | (column, expected) :: rest =>
    match chunk.dtypeOf column with
    | none => validateChunkAgainstSchema chunk rest chunkIndex
    | some actual =>
      if actual == expected then validateChunkAgainstSchema chunk rest chunkIndex
      else some
        { module := "data_ingestion"
          chunk_id := chunkIndex
          error_msg := s!"The data type of column {column} in the chunk does not match the expected type. Expected: {expected}, Obtained: {actual}"
          row_sample := chunk.colHead column }

/-- `_validate_chunk_encoding` (data_ingestion.py lines 281-292): its body
in the source consists solely of a docstring — the function performs no
check and never raises, whatever the chunk contains. -/
def validateChunkEncoding (_chunk : DataFrame) (_encoding : String) : Unit := ()

/-! ## Deduplication ledger (`metadata_controller.py`) -/

/-- One row of the `metadata` table.  In the source `column_names` is
stored as `str(df.columns)`; the list of names carries the same
information here. -/
structure MetadataRecord where
  filename : String
  file_hash : String
  row_count : Nat
  column_names : List String
deriving DecidableEq, Repr

/-- The column declarations of the `CREATE TABLE IF NOT EXISTS metadata`
statement of `MetadataController.create_metadata_table` (lines 41-52),
with the uniqueness constraint each column carries (none does). -/
structure ColumnDDL where
  name : String
  sqlType : String
  isUnique : Bool
deriving DecidableEq, Repr

/-- The declared shape of the ledger table, straight from the DDL string:
five plain columns, no PRIMARY KEY and no UNIQUE constraint. -/
def metadataTableDDL : List ColumnDDL :=
  [ { name := "filename", sqlType := "STRING", isUnique := false }
  , { name := "file_hash", sqlType := "STRING", isUnique := false }
  , { name := "load_date", sqlType := "TIMESTAMP", isUnique := false }
  , { name := "row_count", sqlType := "INTEGER", isUnique := false }
  , { name := "column_names", sqlType := "STRING", isUnique := false } ]

/-- Membership of a file hash in the ledger (`SELECT ... WHERE file_hash = ?`). -/
def hashPresent (metadata : List MetadataRecord) (fileHash : String) : Bool :=
  metadata.any (fun r => r.file_hash == fileHash)

/-- `MetadataController.register_chunk_metadata` (lines 13-39): a SELECT
pre-check on the hash, then `raise AlreadyImportedError` (`none` here) if a
record exists, else a plain INSERT of one record. -/
def register_chunk_metadata (metadata : List MetadataRecord)
    (csvPath fileHash : String) (chunk : DataFrame) :
    Option (List MetadataRecord) :=
  if hashPresent metadata fileHash then none
  else some (metadata ++
    [{ filename := csvPath, file_hash := fileHash
       row_count := chunk.rows.length
       column_names := chunk.cols.map (fun c => c.name) }])

/-! ## Surrogate key assigner (`player_ids_generator.py`) -/

/-- The `players` table plus the `player_id_seq` sequence: rows are
`(id, player_name, club)`, `nextSeq` is the value `nextval` will produce
next (the sequence starts at 1). -/
structure PlayersStore where
  rows : List (Nat × Value × Value)
  nextSeq : Nat
deriving DecidableEq, Repr

/-- The players store right after the idempotent bootstrap
(`CREATE TABLE IF NOT EXISTS` / `CREATE SEQUENCE ... START WITH 1`). -/
def initPlayers : PlayersStore := { rows := [], nextSeq := 1 }

/-- Does a row with this natural key already exist
(the `UNIQUE(player_name, club)` conflict test of `INSERT OR IGNORE`)? -/
def playerKeyExists (rows : List (Nat × Value × Value)) (k : Value × Value) : Bool :=
  rows.any (fun p => p.2.1 == k.1 && p.2.2 == k.2)

/-- One source row of the `INSERT OR IGNORE ... SELECT nextval(...), player_name,
club FROM chunk` statement: `nextval` advances for the row, then the row is
inserted unless its natural key conflicts with an existing row. -/
def insertOrIgnorePlayer (st : PlayersStore) (k : Value × Value) : PlayersStore :=
  let newId := st.nextSeq
  let st1 : PlayersStore := { st with nextSeq := st.nextSeq + 1 }
  if playerKeyExists st1.rows k then st1
  else { st1 with rows := st1.rows ++ [(newId, k.1, k.2)] }

/-- The `(player_name, club)` key of every chunk row, when the chunk has
both columns; `none` models the SQL error raised when a referenced column
is missing. -/
def chunkPlayerKeys (chunk : DataFrame) : Option (List (Value × Value)) :=
  match chunk.colIndex "player_name", chunk.colIndex "club" with
  | some i, some j =>
      some (chunk.rows.map (fun r => (r.getD i .null, r.getD j .null)))
  | _, _ => none

/-- `PlayerIdsGenerator.create_ids` (lines 12-36): bootstrap table and
sequence if absent, then `INSERT OR IGNORE` every chunk row.  The
`except Exception` handler swallows any failure, so a chunk without the
key columns leaves the store unchanged. -/
def create_ids (st : PlayersStore) (chunk : DataFrame) : PlayersStore :=
  match chunkPlayerKeys chunk with
  | some ks => ks.foldl insertOrIgnorePlayer st
  | none => st

/-- The scalar subquery of the `UPDATE temp_chunk SET player_id = (SELECT id
FROM players WHERE ...)` join: the id mapped to a natural key, NULL when
absent. -/
def lookupPlayerId (rows : List (Nat × Value × Value)) (k : Value × Value) : Option Nat :=
  (rows.find? (fun p => p.2.1 == k.1 && p.2.2 == k.2)).map (fun p => p.1)

/-! ## The ingestion engine (`DataIngestor._ingest_chunks_in_db`)

The DuckDB store, the progress file and the report are gathered into one
explicit state.  Exceptions that escape the method become the second
component of the result; the first component is the state at the moment
the method returns or the exception propagates. -/

/-- Exceptions `_ingest_chunks_in_db` can raise.  The duplicate pre-check
path executes `raise AlreadyImportedError("CSV already imported.")`
(line 62), but `AlreadyImportedError.__init__` (already_imported.py)
accepts no message argument, so the exception construction itself fails
with `TypeError` — that `TypeError` is what propagates.  (The bare-class
`raise AlreadyImportedError` inside `register_chunk_metadata` constructs
fine and is caught per chunk, so it never escapes this method.) -/
inductive RunError where
  | typeError
  | valueError (msg : String)
  | runtimeError (msg : String)
deriving DecidableEq, Repr

/-- The store, checkpoint file and report as seen by one `DataIngestor`.
`progress = none` means the `.progress` file does not exist.
`warnLog` records the `(chunk number, try number)` of every
`logger.warning` in the retry handler; `validateLog` records the chunk
index of every `logger.info` at the head of
`_validate_chunk_against_schema`. -/
structure EngineState where
  metadata : List MetadataRecord
  players : PlayersStore
  tableExists : Bool
  tableSchemaDuck : List (String × String)
  tableRows : List (List Value)
  progress : Option Nat
  report : PipelineReport
  warnLog : List (Nat × Nat)
  validateLog : List Nat
deriving DecidableEq, Repr

/-- A database with no target table, no metadata, no players and no
checkpoint, paired with a fresh report. -/
def freshState : EngineState :=
  { metadata := [], players := initPlayers, tableExists := false
    tableSchemaDuck := [], tableRows := [], progress := none
    report := initReport, warnLog := [], validateLog := [] }

/-- The constructor arguments of `DataIngestor` relevant to the run,
with the source file abstracted into its parsed dataframe and its
streaming SHA-256 content hash. -/
structure RunInput where
  csvPath : String
  fileHash : String
  df : DataFrame
  chunkSize : Nat
deriving Repr

/-- `_get_csv_schema`: `pd.read_csv(csv).dtypes.to_dict()`. -/
def getCsvSchema (input : RunInput) : List (String × String) :=
  input.df.cols.map (fun c => (c.name, c.dtype))

/-- `_get_existing_table_schema`: `PRAGMA table_info` mapped through
`type_mapping`. -/
def getExistingTableSchema (st : EngineState) : List (String × String) :=
  st.tableSchemaDuck.map (fun p => (p.1, typeMapping p.2))

/-- The staging steps `CREATE TABLE temp_chunk AS SELECT * FROM chunk`,
`ALTER TABLE temp_chunk ADD COLUMN player_id INTEGER` and the UPDATE join:
every chunk row extended with its resolved surrogate id (NULL when the key
is unknown).  `none` models the SQL error when the chunk lacks the
`player_name`/`club` columns the UPDATE references. -/
def stageChunk (players : PlayersStore) (chunk : DataFrame) :
    Option (List (List Value)) :=
  match chunk.colIndex "player_name", chunk.colIndex "club" with
  | some i, some j =>
      some (chunk.rows.map (fun r =>
        match lookupPlayerId players.rows (r.getD i .null, r.getD j .null) with
        | some id => r ++ [Value.int (Int.ofNat id)]
        | none => r ++ [Value.null]))
  | _, _ => none

/-- How one attempt of the `try` block ends: normal completion
(`success = True`), the `except AlreadyImportedError` handler
(also `success = True`), or the generic `except Exception` handler. -/
inductive AttemptOutcome where
  | ok
  | dup
  | failed
deriving DecidableEq, Repr

/-- A transient-failure environment: `oracle chunkIndex retryCount = true`
means the staging statements of that attempt raise (the injected
`TransientChunkError` of the specification). -/
def Oracle : Type := Nat → Nat → Bool

/-- One iteration of the `try` block of `_ingest_chunks_in_db`
(lines 103-167), in source order: `create_ids`, staging, conditional
target-table creation with `player_id` primary key, metadata
registration (which may raise `AlreadyImportedError`), INSERT from
staging, statistics updates. -/
def tryInsertChunk (oracle : Oracle) (input : RunInput) (chunk : DataFrame)
    (chunkIndex retryCount : Nat) (st : EngineState) :
    EngineState × AttemptOutcome :=
  let st := { st with players := create_ids st.players chunk }
  match stageChunk st.players chunk with
  | none => (st, .failed)
  | some temp =>
    if oracle chunkIndex retryCount then (st, .failed)
    else
      let st :=
        if st.tableExists then st
        else { st with
          tableExists := true
          tableSchemaDuck :=
            chunk.cols.map (fun c => (c.name, pandasToDuck c.dtype))
              ++ [("player_id", "INTEGER")]
          tableRows := [] }
      match register_chunk_metadata st.metadata input.csvPath input.fileHash chunk with
      | none =>
          ({ st with report := { st.report with duplicate_imported_rows := true } }, .dup)
      | some md =>
          let st := { st with metadata := md }
          let st := { st with
            tableRows := st.tableRows ++ temp
            report := { st.report with
              inserted_rows := st.report.inserted_rows + temp.length
              successful_chunks := st.report.successful_chunks + 1 } }
          (st, .ok)

/-- `max_retries` (line 97). -/
def maxRetries : Nat := 3

/-- The message of the fatal chunk failure (lines 186 and 192). -/
def failMsg (chunkIndex : Nat) : String :=
  s!"Failed to insert chunk {chunkIndex + 1} after {maxRetries} attempts"

/-- The error entry appended after the retries are exhausted (lines 182-189). -/
def failEntry (chunkIndex : Nat) : ErrorEntry :=
  { module := "data_ingestion", chunk_id := chunkIndex
    error_msg := failMsg chunkIndex, row_sample := none }

/-- The `while not success and retry_count < max_retries` loop
(lines 102-193).  `fuel` is `max_retries - retry_count`, so the loop is
entered with `fuel = maxRetries` and `retryCount = 0`; the `fuel = 0`
case is unreachable because the loop raises when `retry_count` reaches
`max_retries`.  A `some` result is the `RuntimeError` of line 191. -/
def chunkRetryLoop (oracle : Oracle) (input : RunInput) (chunk : DataFrame)
    (chunkIndex : Nat) : Nat → Nat → EngineState → EngineState × Option RunError
  | 0, _, st => (st, none)
  | fuel + 1, retryCount, st =>
    match tryInsertChunk oracle input chunk chunkIndex retryCount st with
    | (st1, .ok) => (st1, none)
    | (st1, .dup) => (st1, none)
    | (st1, .failed) =>
      let rc := retryCount + 1
      let st2 := { st1 with warnLog := st1.warnLog ++ [(chunkIndex + 1, rc)] }
      if maxRetries ≤ rc then
        let st3 := { st2 with report := { st2.report with
          errors := st2.report.errors ++ [failEntry chunkIndex]
          failed_chunks := st2.report.failed_chunks + 1 } }
        (st3, some (.runtimeError (failMsg chunkIndex)))
      else chunkRetryLoop oracle input chunk chunkIndex fuel rc st2

/-- The `for chunk_index, chunk in enumerate(dataframe)` loop
(lines 84-195): skip chunks below the resume point (still counted
successful), validate schema then encoding, run the retry loop, persist
progress after the chunk. -/
def chunkLoop (oracle : Oracle) (input : RunInput)
    (schema : List (String × String)) (lastChunk : Nat) :
    List DataFrame → Nat → EngineState → EngineState × Option RunError
  | [], _, st => (st, none)
  | chunk :: rest, chunkIndex, st =>
    if chunkIndex < lastChunk then
      chunkLoop oracle input schema lastChunk rest (chunkIndex + 1)
        { st with report := { st.report with
            successful_chunks := st.report.successful_chunks + 1 } }
    else
      let st := { st with validateLog := st.validateLog ++ [chunkIndex] }
      match validateChunkAgainstSchema chunk schema chunkIndex with
      | some e =>
          ({ st with report := { st.report with errors := st.report.errors ++ [e] } },
            some (.valueError e.error_msg))
      | none =>
        let _ := validateChunkEncoding chunk "utf-8"
        match chunkRetryLoop oracle input chunk chunkIndex maxRetries 0 st with
        | (st1, some err) => (st1, some err)
        | (st1, none) =>
            chunkLoop oracle input schema lastChunk rest (chunkIndex + 1)
              { st1 with progress := some chunkIndex }

/-- The chunk list the engine iterates: the dataframe with `serial`
dropped, split by `np.array_split`; every chunk keeps the full column
list. -/
def engineChunkList (input : RunInput) : List DataFrame :=
  let df := dropSerialIfPresent input.df
  (arraySplit df.rows (chunksTotal input.df.rows.length input.chunkSize)).map
    (fun rs => { cols := df.cols, rows := rs })

/-- `DataIngestor._ingest_chunks_in_db` (lines 56-197): read (and default)
the checkpoint, pre-check the ledger — on a known hash, set the duplicate
flag and abort with the `TypeError` raised by the malformed
`AlreadyImportedError("CSV already imported.")` call — else resolve the
schema, count rows, split into chunks, record the totals, and run the
chunk loop. -/
def ingest_chunks_in_db (oracle : Oracle) (input : RunInput) (st : EngineState) :
    EngineState × Option RunError :=
  let lastChunk := st.progress.getD 0
  let st := { st with progress := some lastChunk }
  if hashPresent st.metadata input.fileHash then
    -- line 61 sets the flag; line 62's `AlreadyImportedError("CSV already
    -- imported.")` then raises TypeError while constructing the exception
    ({ st with report := { st.report with duplicate_import := true } },
      some .typeError)
  else
    let schema := if st.tableExists then getExistingTableSchema st else getCsvSchema input
    let rowsLength := input.df.rows.length
    let totalN := chunksTotal rowsLength input.chunkSize
    let st := { st with report := { st.report with
      total_chunks := totalN, total_rows := rowsLength } }
    chunkLoop oracle input schema lastChunk (engineChunkList input) 0 st

/-- A full `with DataIngestor(...) as ingestor: ingestor.ingest_data()`:
the body runs `_ingest_chunks_in_db`, and `__exit__` (lines 51-54) then
closes the connection and removes the progress file — on every exit path,
exceptional or not. -/
def runIngestor (oracle : Oracle) (input : RunInput) (st : EngineState) :
    EngineState × Option RunError :=
  let r := ingest_chunks_in_db oracle input st
  ({ r.1 with progress := none }, r.2)

/-! ## Derived engine views and run predicates -/

/-- The chunk of a run at a given index (defaulting to the empty frame). -/
def engineChunk (input : RunInput) (k : Nat) : DataFrame :=
  (engineChunkList input).getD k (DataFrame.mk [] [])

/-- The rows obtained by staging a chunk (empty when staging raises). -/
def stagedRows (players : PlayersStore) (chunk : DataFrame) : List (List Value) :=
  (stageChunk players chunk).getD []

/-- Well-formedness of the players store: every id is below the next
sequence value, no two rows share an id, and no two rows share a natural
key. -/
def PlayersWF (st : PlayersStore) : Prop :=
  (∀ p ∈ st.rows, p.1 < st.nextSeq) ∧
  st.rows.Pairwise (fun p q => p.1 ≠ q.1) ∧
  st.rows.Pairwise (fun p q => p.2 ≠ q.2)

/-- How one store state evolves into a later one: old mappings survive
untouched, the counter never decreases, and every new mapping got an id
at or above the old counter. -/
def PlayersEvolves (a b : PlayersStore) : Prop :=
  (∀ e ∈ a.rows, e ∈ b.rows) ∧ a.nextSeq ≤ b.nextSeq ∧
  (∀ e ∈ b.rows, e ∉ a.rows → a.nextSeq ≤ e.1)

/-- Any sequence of `create_ids` calls over any chunks, on the same store. -/
def runCreateIds (st : PlayersStore) (chunks : List DataFrame) : PlayersStore :=
  chunks.foldl create_ids st

/-! ## Shared concrete fixtures -/

/-- A failure-free environment. -/
def noFailures : Oracle := fun _ _ => false

/-- An environment in which every staging attempt raises. -/
def allFailures : Oracle := fun _ _ => true

/-- A five-row dataset with the natural-key columns. -/
def sampleDf : DataFrame :=
  { cols := [ { name := "player_name", dtype := "object" }
            , { name := "club", dtype := "object" }
            , { name := "goals", dtype := "int64" } ]
    rows := [ [.str [65], .str [66], .int 1]
            , [.str [67], .str [68], .int 2]
            , [.str [65], .str [66], .int 3]
            , [.str [69], .str [70], .int 4]
            , [.str [71], .str [72], .int 5] ] }

/-- A run over `sampleDf` with chunk size 2 (so 2 chunks of sizes 3 and 2). -/
def sampleInput : RunInput :=
  { csvPath := "key_stats.csv.processed", fileHash := "h1"
    df := sampleDf, chunkSize := 2 }

/-- A store that already holds `sampleInput`'s content hash in the ledger. -/
def dupState : EngineState :=
  { freshState with metadata :=
      [{ filename := "key_stats.csv.processed", file_hash := "h1"
         row_count := 5, column_names := ["player_name", "club", "goals"] }] }

/-- A dataframe carrying a `serial` column. -/
def serialDf : DataFrame :=
  { cols := [ { name := "serial", dtype := "int64" }
            , { name := "player_name", dtype := "object" } ]
    rows := [ [.int 0, .str [65]], [.int 1, .str [66]] ] }

/-- A two-row chunk whose first row holds a string cell that is not
representable in UTF-8 (a lone surrogate codepoint). -/
def surrogateDf : DataFrame :=
  { cols := [ { name := "player_name", dtype := "object" }
            , { name := "club", dtype := "object" } ]
    rows := [ [.str [0xD800], .str [99]], [.str [100], .str [101]] ] }

/-- A single-chunk run over `surrogateDf`. -/
def surrogateInput : RunInput :=
  { csvPath := "bad.csv.processed", fileHash := "h2", df := surrogateDf, chunkSize := 10 }

/-- The failure-free run over the unencodable chunk. -/
def c5run : EngineState × Option RunError :=
  ingest_chunks_in_db noFailures surrogateInput freshState

/-- A fresh database whose checkpoint file exists and holds 0, as a
previous interrupted run leaves it. -/
def resumeState : EngineState := { freshState with progress := some 0 }

/-! ## Shared helper lemmas -/

theorem validate_eq_none_iff (chunk : DataFrame) (schema : List (String × String))
    (idx : Nat) :
    validateChunkAgainstSchema chunk schema idx = none ↔
      ∀ p ∈ schema, ∀ t, chunk.dtypeOf p.1 = some t → t = p.2 := by
  induction schema with
  | nil => simp [validateChunkAgainstSchema]
  | cons hd rest ih =>
      obtain ⟨column, expected⟩ := hd
      rw [List.forall_mem_cons]
      cases h : chunk.dtypeOf column with
      | none =>
          have hstep : validateChunkAgainstSchema chunk ((column, expected) :: rest) idx
              = validateChunkAgainstSchema chunk rest idx := by
            simp [validateChunkAgainstSchema, h]
          rw [hstep, ih]
          constructor
          · intro hr
            refine ⟨?_, hr⟩
            intro t ht
            cases ht
          · exact fun hr => hr.2
      | some actual =>
          by_cases he : actual = expected
          · subst he
            have hstep : validateChunkAgainstSchema chunk ((column, actual) :: rest) idx
                = validateChunkAgainstSchema chunk rest idx := by
              simp [validateChunkAgainstSchema, h]
            rw [hstep, ih]
            constructor
            · intro hr
              refine ⟨?_, hr⟩
              intro t ht
              exact (Option.some.inj ht).symm
            · exact fun hr => hr.2
          · constructor
            · intro hv
              simp only [validateChunkAgainstSchema, h] at hv
              rw [if_neg (by simpa using he)] at hv
              cases hv
            · intro hr
              exact absurd (hr.1 actual rfl) he

theorem validate_none_of_none (chunk : DataFrame) (schema : List (String × String))
    (i j : Nat) (h : validateChunkAgainstSchema chunk schema i = none) :
    validateChunkAgainstSchema chunk schema j = none := by
  rw [validate_eq_none_iff] at h ⊢
  exact h

theorem find?_filter_of_nodup (cols : List ColumnSpec) (p : ColumnSpec → Bool)
    (c : ColumnSpec) (hnd : (cols.map (fun x => x.name)).Nodup) (hc : c ∈ cols) :
    (cols.filter p).find? (fun x => x.name == c.name) =
      if p c then some c else none := by
  induction cols with
  | nil => cases hc
  | cons d ds ih =>
      simp only [List.map_cons, List.nodup_cons, List.mem_map] at hnd
      rcases List.mem_cons.mp hc with rfl | hmem
      · have hnone : ∀ x ∈ ds, ¬(x.name == c.name) = true := by
          intro x hx hbx
          exact hnd.1 ⟨x, hx, by simpa using hbx⟩
        by_cases hp : p c
        · rw [if_pos hp]
          have hfc : (c :: ds).filter p = c :: ds.filter p := by
            simp [List.filter_cons, hp]
          rw [hfc]
          simp [List.find?_cons]
        · rw [if_neg hp]
          have hfc : (c :: ds).filter p = ds.filter p := by
            simp [List.filter_cons, hp]
          rw [hfc, List.find?_eq_none]
          intro x hx
          exact hnone x (List.mem_of_mem_filter hx)
      · have hne : (d.name == c.name) = false := by
          rw [beq_eq_false_iff_ne]
          intro heq
          exact hnd.1 ⟨c, hmem, heq.symm⟩
        have ihr := ih hnd.2 hmem
        by_cases hp : p d
        · have hfc : (d :: ds).filter p = d :: ds.filter p := by
            simp [List.filter_cons, hp]
          rw [hfc]
          have hfind : (d :: ds.filter p).find? (fun x => x.name == c.name)
              = (ds.filter p).find? (fun x => x.name == c.name) := by
            simp [List.find?_cons, hne]
          rw [hfind]
          exact ihr
        · have hfc : (d :: ds).filter p = ds.filter p := by
            simp [List.filter_cons, hp]
          rw [hfc]
          exact ihr

theorem dtypeOf_filter_of_nodup (cols : List ColumnSpec) (p : ColumnSpec → Bool)
    (rs : List (List Value)) (c : ColumnSpec)
    (hnd : (cols.map (fun x => x.name)).Nodup) (hc : c ∈ cols) :
    (DataFrame.mk (cols.filter p) rs).dtypeOf c.name =
      if p c then some c.dtype else none := by
  unfold DataFrame.dtypeOf
  rw [find?_filter_of_nodup cols p c hnd hc]
  by_cases hp : p c <;> simp [hp]

/-- A chunk whose columns are a name-filtered subset of the dataframe
columns always passes validation against the schema derived from that
same dataframe (exact dtype names agree on every shared column). -/
theorem validate_pass_filter (cols : List ColumnSpec) (p : ColumnSpec → Bool)
    (rs : List (List Value)) (idx : Nat)
    (hnd : (cols.map (fun x => x.name)).Nodup) :
    validateChunkAgainstSchema (DataFrame.mk (cols.filter p) rs)
      (cols.map (fun c => (c.name, c.dtype))) idx = none := by
  rw [validate_eq_none_iff]
  intro q hq t ht
  obtain ⟨c, hc, rfl⟩ := List.mem_map.mp hq
  rw [dtypeOf_filter_of_nodup cols p rs c hnd hc] at ht
  by_cases hp : p c
  · rw [if_pos hp] at ht
    simpa using ht.symm
  · rw [if_neg hp] at ht
    cases ht

/-- Shape of any error entry returned by `_validate_chunk_against_schema`:
module and chunk index fixed, row sample drawn from the offending column,
and some schema column actually disagreeing on the exact dtype name. -/
theorem validate_some_shape (chunk : DataFrame) (schema : List (String × String))
    (idx : Nat) (e : ErrorEntry)
    (h : validateChunkAgainstSchema chunk schema idx = some e) :
    e.module = "data_ingestion" ∧ e.chunk_id = idx ∧
    ∃ column expected actual, (column, expected) ∈ schema ∧
      chunk.dtypeOf column = some actual ∧ actual ≠ expected ∧
      e.row_sample = chunk.colHead column := by
  induction schema with
  | nil => cases h
  | cons hd rest ih =>
      obtain ⟨column, expected⟩ := hd
      cases hdt : chunk.dtypeOf column with
      | none =>
          simp only [validateChunkAgainstSchema, hdt] at h
          obtain ⟨h1, h2, c, x, a, hmem, hrest⟩ := ih h
          exact ⟨h1, h2, c, x, a, List.mem_cons_of_mem _ hmem, hrest⟩
      | some actual =>
          by_cases he : actual = expected
          · subst he
            simp only [validateChunkAgainstSchema, hdt, beq_self_eq_true, if_true] at h
            obtain ⟨h1, h2, c, x, a, hmem, hrest⟩ := ih h
            exact ⟨h1, h2, c, x, a, List.mem_cons_of_mem _ hmem, hrest⟩
          · simp only [validateChunkAgainstSchema, hdt] at h
            rw [if_neg (by simpa using he)] at h
            obtain rfl := Option.some.inj h
            exact ⟨rfl, rfl, column, expected, actual, List.mem_cons_self _ _, hdt, he, rfl⟩

/-! ## C4 — chunk partition arithmetic -/

/-- C4 counterexample: with R = 5 rows and chunk size C = 2, the code
produces `floor(5/2) = 2` groups of sizes 3 and 2 — the groups are not
equally sized, contrary to the claim. -/
theorem C4_counterexample :
    chunksTotal 5 2 = 2 ∧
    (arraySplit (List.range 5) (chunksTotal 5 2)).map List.length = [3, 2] ∧
    (3 : Nat) ≠ 2 := by decide

/-- C4 (amended): for R rows and chunk size C > 0 the dataset is split
into `floor(R/C)` groups when R > C and one group otherwise; the groups
cover all rows in order with no omission or duplication, their number is
the reported `total_chunks`, and their sizes are near-equal — `R/n` or
`R/n + 1` where n is the group count — rather than exactly equal. -/
theorem C4_chunking {α : Type} (rows : List α) (C : Nat) (hC : 0 < C) :
    (C < rows.length → chunksTotal rows.length C = rows.length / C) ∧
    (rows.length ≤ C → chunksTotal rows.length C = 1) ∧
    (arraySplit rows (chunksTotal rows.length C)).length = chunksTotal rows.length C ∧
    (arraySplit rows (chunksTotal rows.length C)).flatten = rows ∧
    (∀ p ∈ arraySplit rows (chunksTotal rows.length C),
      p.length = rows.length / chunksTotal rows.length C ∨
      p.length = rows.length / chunksTotal rows.length C + 1) := by
  have hn : 0 < chunksTotal rows.length C := chunksTotal_pos _ _ hC
  refine ⟨?_, ?_, arraySplit_length _ _ hn, arraySplit_flatten _ _ hn, ?_⟩
  · intro h
    unfold chunksTotal
    rw [if_pos h]
  · intro h
    unfold chunksTotal
    rw [if_neg (not_lt.mpr h)]
  · intro p hp
    have hm : p.length ∈ (arraySplit rows (chunksTotal rows.length C)).map List.length :=
      List.mem_map_of_mem _ hp
    rw [arraySplit_map_length _ _ hn] at hm
    rcases mem_arraySplitSizes _ _ _ hm with h1 | h1
    · exact Or.inl h1
    · exact Or.inr h1

/-- C4 witness: the amended theorem applied to 5 rows and chunk size 2. -/
theorem C4_chunking_witness :
    0 < 2 ∧
    (arraySplit (List.range 5) (chunksTotal (List.range 5).length 2)).flatten = List.range 5 :=
  ⟨by decide, (C4_chunking (List.range 5) 2 (by decide)).2.2.2.1⟩

/-! ## C10 — the `serial` column is dropped before chunking -/

theorem no_serial_after_drop (df : DataFrame) (c : ColumnSpec)
    (hc : c ∈ (dropSerialIfPresent df).cols) : c.name ≠ "serial" := by
  rw [dropSerialIfPresent_cols] at hc
  have := (List.mem_filter.mp hc).2
  simpa using this

/-- C10: a column named `serial` is dropped from the dataframe before
chunking: the remaining columns are exactly the non-serial columns, each
row keeps exactly its cells under non-serial columns in order, and no
chunk handed to validation/staging ever contains a `serial` column. -/
theorem C10_serial_dropped (df : DataFrame)
    (hser : df.cols.any (fun c => c.name == "serial") = true) :
    (dropSerialIfPresent df).cols = df.cols.filter (fun c => !(c.name == "serial")) ∧
    (∀ c ∈ (dropSerialIfPresent df).cols, c.name ≠ "serial") ∧
    (dropSerialIfPresent df).rows = df.rows.map (fun r =>
      ((r.zip df.cols).filter (fun p => !(p.2.name == "serial"))).map Prod.fst) ∧
    (∀ input : RunInput, ∀ c ∈ engineChunkList input, ∀ col ∈ c.cols,
      col.name ≠ "serial") := by
  refine ⟨dropSerialIfPresent_cols df, fun c hc => no_serial_after_drop df c hc, ?_, ?_⟩
  · unfold dropSerialIfPresent
    rw [if_pos hser]
    rfl
  · intro input c hcm col hcol
    unfold engineChunkList at hcm
    obtain ⟨rs, _, rfl⟩ := List.mem_map.mp hcm
    exact no_serial_after_drop input.df col hcol

/-- C10 witness: the theorem applied to a concrete dataframe with a
`serial` column. -/
theorem C10_serial_dropped_witness :
    serialDf.cols.any (fun c => c.name == "serial") = true ∧
    (dropSerialIfPresent serialDf).rows = serialDf.rows.map (fun r =>
      ((r.zip serialDf.cols).filter (fun p => !(p.2.name == "serial"))).map Prod.fst) :=
  ⟨by decide, (C10_serial_dropped serialDf (by decide)).2.2.1⟩

/-! ## C7 — dedup guard of the ledger register -/

/-- C7 counterexample: the `metadata` table DDL declares no uniqueness
constraint at all — in particular none on `file_hash` — so the
register-time guard is not a write-time uniqueness constraint, contrary
to the claim; it is only the SELECT pre-check inside
`register_chunk_metadata`. -/
theorem C7_counterexample :
    (metadataTableDDL.find? (fun c => c.name == "file_hash")).map
      (fun c => c.isUnique) = some false ∧
    metadataTableDDL.all (fun c => !c.isUnique) = true := by decide

/-- C7 (amended): `register_chunk_metadata` raises `AlreadyImportedError`
iff the content hash is already present in the ledger, and otherwise
appends exactly one record; but the guard is a SELECT-then-INSERT
pre-check inside the method, not a uniqueness constraint of the table. -/
theorem C7_register (metadata : List MetadataRecord) (csvPath fileHash : String)
    (chunk : DataFrame) :
    (register_chunk_metadata metadata csvPath fileHash chunk = none ↔
      hashPresent metadata fileHash = true) ∧
    (hashPresent metadata fileHash = false →
      register_chunk_metadata metadata csvPath fileHash chunk =
        some (metadata ++
          [{ filename := csvPath, file_hash := fileHash
             row_count := chunk.rows.length
             column_names := chunk.cols.map (fun c => c.name) }])) := by
  unfold register_chunk_metadata
  by_cases h : hashPresent metadata fileHash <;> simp [h]

/-- C7 witness: registering a fresh hash into an empty ledger appends one
record. -/
theorem C7_register_witness :
    hashPresent [] "h9" = false ∧
    register_chunk_metadata [] "a.csv.processed" "h9" (DataFrame.mk [] []) =
      some [{ filename := "a.csv.processed", file_hash := "h9"
              row_count := 0, column_names := [] }] :=
  ⟨by decide, (C7_register [] "a.csv.processed" "h9" (DataFrame.mk [] [])).2 (by decide)⟩

/-! ## C8 — schema validation semantics -/

/-- C8 counterexample: `int32` and `int64` share the semantic category
`integer`, yet validation rejects a chunk whose `age` column is `int32`
against an expected `int64` — the comparison is exact dtype-name equality,
not semantic-category comparison. -/
theorem C8_counterexample :
    semanticCategory "int32" = "integer" ∧
    semanticCategory "int64" = "integer" ∧
    (validateChunkAgainstSchema
      (DataFrame.mk [{ name := "age", dtype := "int32" }] [[.int 7]])
      [("age", "int64")] 0).isSome = true := by decide

/-- C8 (amended): validation iterates the expected schema and, for every
column present in both, compares the exact dtype names (so categories of
different widths mismatch); chunk-only columns are passed unchecked; the
first mismatch produces one error entry with the fixed module, the chunk
index and a row sample from the offending column; and the engine then
appends that entry to the report and aborts the run before the retry
loop, so none of the chunk's rows reach the target table. -/
theorem C8_schema_validation (chunk : DataFrame) (schema : List (String × String))
    (idx : Nat) :
    (validateChunkAgainstSchema chunk schema idx = none ↔
      ∀ p ∈ schema, ∀ t, chunk.dtypeOf p.1 = some t → t = p.2) ∧
    (∀ e, validateChunkAgainstSchema chunk schema idx = some e →
      e.module = "data_ingestion" ∧ e.chunk_id = idx ∧
      ∃ column expected actual, (column, expected) ∈ schema ∧
        chunk.dtypeOf column = some actual ∧ actual ≠ expected ∧
        e.row_sample = chunk.colHead column) ∧
    (∀ (oracle : Oracle) (input : RunInput) (lastChunk : Nat)
        (rest : List DataFrame) (st : EngineState) (e : ErrorEntry),
      lastChunk ≤ idx →
      validateChunkAgainstSchema chunk schema idx = some e →
      chunkLoop oracle input schema lastChunk (chunk :: rest) idx st =
        ({ st with
            validateLog := st.validateLog ++ [idx]
            report := { st.report with errors := st.report.errors ++ [e] } },
          some (.valueError e.error_msg))) := by
  refine ⟨validate_eq_none_iff chunk schema idx,
    fun e he => validate_some_shape chunk schema idx e he, ?_⟩
  intro oracle input lastChunk rest st e hle hsome
  simp only [chunkLoop, if_neg (Nat.not_lt.mpr hle), hsome]

/-- C8 witness: the amended theorem applied to a concrete mismatching
chunk aborts the loop with exactly one appended error entry. -/
theorem C8_schema_validation_witness :
    (0 : Nat) ≤ 0 ∧
    validateChunkAgainstSchema
      (DataFrame.mk [{ name := "age", dtype := "int32" }] [[.int 7]])
      [("age", "int64")] 0 = some
        { module := "data_ingestion", chunk_id := 0
          error_msg := "The data type of column age in the chunk does not match the expected type. Expected: int64, Obtained: int32"
          row_sample := some (.int 7) } ∧
    chunkLoop noFailures sampleInput [("age", "int64")] 0
        [DataFrame.mk [{ name := "age", dtype := "int32" }] [[.int 7]]] 0 freshState =
      ({ freshState with
          validateLog := freshState.validateLog ++ [0]
          report := { freshState.report with
            errors := freshState.report.errors ++
              [{ module := "data_ingestion", chunk_id := 0
                 error_msg := "The data type of column age in the chunk does not match the expected type. Expected: int64, Obtained: int32"
                 row_sample := some (.int 7) }] } },
        some (.valueError "The data type of column age in the chunk does not match the expected type. Expected: int64, Obtained: int32")) :=
  ⟨le_refl 0, by decide,
    (C8_schema_validation
      (DataFrame.mk [{ name := "age", dtype := "int32" }] [[.int 7]])
      [("age", "int64")] 0).2.2 noFailures sampleInput 0 [] freshState _
      (le_refl 0) (by decide)⟩

/-! ## C6 — surrogate key registry invariants -/

theorem playersEvolves_refl (a : PlayersStore) : PlayersEvolves a a :=
  ⟨fun _ he => he, le_refl _, fun _ he hne => absurd he hne⟩

theorem playersEvolves_trans {a b c : PlayersStore}
    (hab : PlayersEvolves a b) (hbc : PlayersEvolves b c) : PlayersEvolves a c := by
  refine ⟨fun e he => hbc.1 e (hab.1 e he), le_trans hab.2.1 hbc.2.1, ?_⟩
  intro e hec hea
  by_cases heb : e ∈ b.rows
  · exact hab.2.2 e heb hea
  · exact le_trans hab.2.1 (hbc.2.2 e hec heb)

theorem playerKeyExists_false {rows : List (Nat × Value × Value)}
    {k : Value × Value} (h : playerKeyExists rows k = false) :
    ∀ p ∈ rows, p.2 ≠ k := by
  intro p hp heq
  rw [playerKeyExists, List.any_eq_false] at h
  apply h p hp
  rw [heq]
  simp

theorem insertOrIgnore_step (st : PlayersStore) (k : Value × Value)
    (h : PlayersWF st) :
    PlayersWF (insertOrIgnorePlayer st k) ∧
    PlayersEvolves st (insertOrIgnorePlayer st k) := by
  obtain ⟨hbound, hids, hkeys⟩ := h
  unfold insertOrIgnorePlayer
  by_cases hex : playerKeyExists st.rows k
  · simp only [hex, if_true]
    refine ⟨⟨fun p hp => Nat.lt_succ_of_lt (hbound p hp), hids, hkeys⟩, ?_⟩
    exact ⟨fun e he => he, Nat.le_succ _, fun e he hne => absurd he hne⟩
  · rw [if_neg hex]
    constructor
    · refine ⟨?_, ?_, ?_⟩
      · intro p hp
        rcases List.mem_append.mp hp with hold | hnew
        · exact Nat.lt_succ_of_lt (hbound p hold)
        · rcases List.mem_singleton.mp hnew with rfl
          exact Nat.lt_succ_self _
      · rw [List.pairwise_append]
        refine ⟨hids, List.pairwise_singleton _ _, ?_⟩
        intro a ha b hb
        rcases List.mem_singleton.mp hb with rfl
        exact Nat.ne_of_lt (hbound a ha)
      · rw [List.pairwise_append]
        refine ⟨hkeys, List.pairwise_singleton _ _, ?_⟩
        intro a ha b hb
        rcases List.mem_singleton.mp hb with rfl
        have := playerKeyExists_false (Bool.not_eq_true _ ▸ hex : playerKeyExists st.rows k = false) a ha
        simpa using this
    · refine ⟨fun e he => List.mem_append_left _ he, Nat.le_succ _, ?_⟩
      intro e he hne
      rcases List.mem_append.mp he with hold | hnew
      · exact absurd hold hne
      · rcases List.mem_singleton.mp hnew with rfl
        exact le_refl _

theorem foldl_insertOrIgnore (ks : List (Value × Value)) (st : PlayersStore)
    (h : PlayersWF st) :
    PlayersWF (ks.foldl insertOrIgnorePlayer st) ∧
    PlayersEvolves st (ks.foldl insertOrIgnorePlayer st) := by
  induction ks generalizing st with
  | nil => exact ⟨h, playersEvolves_refl st⟩
  | cons k ks ih =>
      obtain ⟨hwf, hev⟩ := insertOrIgnore_step st k h
      obtain ⟨hwf2, hev2⟩ := ih (insertOrIgnorePlayer st k) hwf
      exact ⟨hwf2, playersEvolves_trans hev hev2⟩

theorem create_ids_step (st : PlayersStore) (chunk : DataFrame)
    (h : PlayersWF st) :
    PlayersWF (create_ids st chunk) ∧ PlayersEvolves st (create_ids st chunk) := by
  unfold create_ids
  cases chunkPlayerKeys chunk with
  | none => exact ⟨h, playersEvolves_refl st⟩
  | some ks => exact foldl_insertOrIgnore ks st h

/-- C6: across every sequence of `create_ids` calls on a well-formed
store, the store stays well-formed — each natural key holds at most one
row, so it maps to exactly one surrogate id, and no two rows share an id —
existing mappings are never overwritten (they survive verbatim), and
every newly assigned id is drawn at or above the shared counter, which
never decreases. -/
theorem C6_surrogate_registry (st : PlayersStore) (chunks : List DataFrame)
    (h : PlayersWF st) :
    PlayersWF (runCreateIds st chunks) ∧
    (∀ e ∈ st.rows, e ∈ (runCreateIds st chunks).rows) ∧
    st.nextSeq ≤ (runCreateIds st chunks).nextSeq ∧
    (∀ e ∈ (runCreateIds st chunks).rows, e ∉ st.rows → st.nextSeq ≤ e.1) := by
  have : PlayersWF (runCreateIds st chunks) ∧ PlayersEvolves st (runCreateIds st chunks) := by
    unfold runCreateIds
    induction chunks generalizing st with
    | nil => exact ⟨h, playersEvolves_refl st⟩
    | cons c cs ih =>
        obtain ⟨hwf, hev⟩ := create_ids_step st c h
        obtain ⟨hwf2, hev2⟩ := ih (create_ids st c) hwf
        exact ⟨hwf2, playersEvolves_trans hev hev2⟩
  exact ⟨this.1, this.2.1, this.2.2.1, this.2.2.2⟩

/-- C6 witness: the invariant theorem applied to the empty bootstrap
store and one concrete chunk. -/
theorem C6_surrogate_registry_witness :
    PlayersWF initPlayers ∧ PlayersWF (runCreateIds initPlayers [sampleDf]) :=
  ⟨by simp [PlayersWF, initPlayers],
    (C6_surrogate_registry initPlayers [sampleDf] (by simp [PlayersWF, initPlayers])).1⟩

/-! ## Engine unfolding lemmas -/

/-- An attempt whose staging statements raise leaves only the
`create_ids` effect (DuckDB auto-commits each statement) and reports a
generic failure to the retry handler. -/
theorem tryInsertChunk_failed (oracle : Oracle) (input : RunInput) (chunk : DataFrame)
    (idx rc : Nat) (st : EngineState) (h : oracle idx rc = true) :
    tryInsertChunk oracle input chunk idx rc st =
      ({ st with players := create_ids st.players chunk }, .failed) := by
  simp only [tryInsertChunk]
  split
  · rfl
  · simp [h]

/-- A chunk whose staging fails on every attempt: exactly three attempts,
each logged with its try number, then one error entry, one failed-chunk
increment, and the fatal `RuntimeError`. -/
theorem chunkRetryLoop_allFail (oracle : Oracle) (input : RunInput) (chunk : DataFrame)
    (idx : Nat) (st : EngineState) (h : ∀ rc, oracle idx rc = true) :
    chunkRetryLoop oracle input chunk idx maxRetries 0 st =
      ({ st with
          players := create_ids (create_ids (create_ids st.players chunk) chunk) chunk
          warnLog := st.warnLog ++ [(idx + 1, 1), (idx + 1, 2), (idx + 1, 3)]
          report := { st.report with
            errors := st.report.errors ++ [failEntry idx]
            failed_chunks := st.report.failed_chunks + 1 } },
        some (.runtimeError (failMsg idx))) := by
  show chunkRetryLoop oracle input chunk idx (2 + 1) 0 st = _
  rw [chunkRetryLoop, tryInsertChunk_failed oracle input chunk idx 0 st (h 0)]
  simp only [maxRetries]
  norm_num
  show chunkRetryLoop oracle input chunk idx (1 + 1) 1 _ = _
  rw [chunkRetryLoop, tryInsertChunk_failed oracle input chunk idx 1 _ (h 1)]
  simp only [maxRetries]
  norm_num
  show chunkRetryLoop oracle input chunk idx (0 + 1) 2 _ = _
  rw [chunkRetryLoop, tryInsertChunk_failed oracle input chunk idx 2 _ (h 2)]
  simp only [maxRetries, failEntry, failMsg]
  norm_num

/-- Chunks below the resume point are skipped wholesale: each bumps the
successful counter and nothing else. -/
theorem chunkLoop_skip (oracle : Oracle) (input : RunInput)
    (schema : List (String × String)) (lastChunk : Nat)
    (pre rest : List DataFrame) (idx : Nat) (st : EngineState)
    (h : idx + pre.length ≤ lastChunk) :
    chunkLoop oracle input schema lastChunk (pre ++ rest) idx st =
      chunkLoop oracle input schema lastChunk rest (idx + pre.length)
        { st with report := { st.report with
            successful_chunks := st.report.successful_chunks + pre.length } } := by
  induction pre generalizing idx st with
  | nil => simp
  | cons c pre ih =>
      have hidx : idx < lastChunk := by
        simp only [List.length_cons] at h
        omega
      rw [List.cons_append]
      simp only [chunkLoop, hidx, if_true]
      rw [ih (idx + 1) _ (by simp only [List.length_cons] at h ⊢; omega)]
      have e1 : idx + 1 + pre.length = idx + (c :: pre).length := by
        simp only [List.length_cons]
        omega
      have e2 : st.report.successful_chunks + 1 + pre.length
          = st.report.successful_chunks + (c :: pre).length := by
        simp only [List.length_cons]
        omega
      rw [e1, e2]

theorem engineChunkList_length (input : RunInput) (hC : 0 < input.chunkSize) :
    (engineChunkList input).length = chunksTotal input.df.rows.length input.chunkSize := by
  unfold engineChunkList
  rw [List.length_map, arraySplit_length]
  exact chunksTotal_pos _ _ hC

theorem engineChunk_cols (input : RunInput) (k : Nat)
    (hk : k < (engineChunkList input).length) :
    (engineChunk input k).cols = (dropSerialIfPresent input.df).cols := by
  unfold engineChunk
  rw [List.getD_eq_getElem _ _ hk]
  unfold engineChunkList at hk ⊢
  simp only [List.getElem_map]

/-- With a fresh hash and no target table, `_ingest_chunks_in_db` reduces
to the chunk loop over the dataframe-derived schema starting from the
(possibly just defaulted) checkpoint. -/
theorem ingest_unfold (oracle : Oracle) (input : RunInput) (st : EngineState)
    (hdup : hashPresent st.metadata input.fileHash = false)
    (hte : st.tableExists = false) :
    ingest_chunks_in_db oracle input st =
      chunkLoop oracle input (getCsvSchema input) (st.progress.getD 0)
        (engineChunkList input) 0
        { st with
            progress := some (st.progress.getD 0)
            report := { st.report with
              total_chunks := chunksTotal input.df.rows.length input.chunkSize
              total_rows := input.df.rows.length } } := by
  simp only [ingest_chunks_in_db, hdup, hte, Bool.false_eq_true, if_false]

theorem engineChunk_validate (input : RunInput) (k idx : Nat)
    (hk : k < (engineChunkList input).length)
    (hnodup : (input.df.cols.map (fun c => c.name)).Nodup) :
    validateChunkAgainstSchema (engineChunk input k) (getCsvSchema input) idx = none := by
  have hcols := engineChunk_cols input k hk
  have heta : engineChunk input k
      = DataFrame.mk (engineChunk input k).cols (engineChunk input k).rows := rfl
  rw [heta, hcols, dropSerialIfPresent_cols]
  exact validate_pass_filter _ _ _ _ hnodup

theorem engineChunkList_colIndex (input : RunInput) (c : DataFrame)
    (hc : c ∈ engineChunkList input) (name : String) :
    c.colIndex name = (dropSerialIfPresent input.df).colIndex name := by
  unfold engineChunkList at hc
  obtain ⟨rs, hrs, rfl⟩ := List.mem_map.mp hc
  rfl

theorem engineChunkList_validate (input : RunInput)
    (hnodup : (input.df.cols.map (fun c => c.name)).Nodup)
    (c : DataFrame) (hc : c ∈ engineChunkList input) (idx : Nat) :
    validateChunkAgainstSchema c (getCsvSchema input) idx = none := by
  unfold engineChunkList at hc
  obtain ⟨rs, hrs, rfl⟩ := List.mem_map.mp hc
  show validateChunkAgainstSchema
    (DataFrame.mk (dropSerialIfPresent input.df).cols rs) _ idx = none
  rw [dropSerialIfPresent_cols]
  exact validate_pass_filter _ _ _ _ hnodup

theorem stageChunk_eq_some (players : PlayersStore) (chunk : DataFrame)
    (hpn : (chunk.colIndex "player_name").isSome)
    (hcl : (chunk.colIndex "club").isSome) :
    stageChunk players chunk = some (stagedRows players chunk) := by
  obtain ⟨i, hi⟩ := Option.isSome_iff_exists.mp hpn
  obtain ⟨j, hj⟩ := Option.isSome_iff_exists.mp hcl
  unfold stagedRows stageChunk
  rw [hi, hj]
  rfl

theorem stagedRows_length (players : PlayersStore) (chunk : DataFrame)
    (hpn : (chunk.colIndex "player_name").isSome)
    (hcl : (chunk.colIndex "club").isSome) :
    (stagedRows players chunk).length = chunk.rows.length := by
  obtain ⟨i, hi⟩ := Option.isSome_iff_exists.mp hpn
  obtain ⟨j, hj⟩ := Option.isSome_iff_exists.mp hcl
  unfold stagedRows stageChunk
  rw [hi, hj]
  simp

theorem hashPresent_append_one (metadata : List MetadataRecord)
    (r : MetadataRecord) (h : String) (hr : r.file_hash = h) :
    hashPresent (metadata ++ [r]) h = true := by
  unfold hashPresent
  rw [List.any_append]
  simp [hr]

/-- An attempt with no transient failure, against a store that already
holds the file hash: registration raises `AlreadyImportedError`, the
handler marks the duplicate-rows flag and ends the chunk as a success —
without executing the insert. -/
theorem tryInsertChunk_dup (oracle : Oracle) (input : RunInput) (chunk : DataFrame)
    (idx rc : Nat) (st : EngineState)
    (ho : oracle idx rc = false)
    (hhash : hashPresent st.metadata input.fileHash = true)
    (hte : st.tableExists = true)
    (hpn : (chunk.colIndex "player_name").isSome)
    (hcl : (chunk.colIndex "club").isSome) :
    tryInsertChunk oracle input chunk idx rc st =
      ({ st with players := create_ids st.players chunk
                 report := { st.report with duplicate_imported_rows := true } }, .dup) := by
  simp only [tryInsertChunk]
  rw [stageChunk_eq_some _ _ hpn hcl]
  simp only [ho, Bool.false_eq_true, if_false, hte, if_true]
  simp only [register_chunk_metadata, hhash, if_true]

/-- The first successful attempt over a fresh store: the target table is
created from the staged structure, one ledger record is registered, and
the staged rows are inserted. -/
theorem tryInsertChunk_first (oracle : Oracle) (input : RunInput) (chunk : DataFrame)
    (idx rc : Nat) (st : EngineState)
    (ho : oracle idx rc = false)
    (hhash : hashPresent st.metadata input.fileHash = false)
    (hte : st.tableExists = false)
    (hpn : (chunk.colIndex "player_name").isSome)
    (hcl : (chunk.colIndex "club").isSome) :
    tryInsertChunk oracle input chunk idx rc st =
      ({ st with
          metadata := st.metadata ++
            [{ filename := input.csvPath, file_hash := input.fileHash
               row_count := chunk.rows.length
               column_names := chunk.cols.map (fun c => c.name) }]
          players := create_ids st.players chunk
          tableExists := true
          tableSchemaDuck := chunk.cols.map (fun c => (c.name, pandasToDuck c.dtype))
            ++ [("player_id", "INTEGER")]
          tableRows := stagedRows (create_ids st.players chunk) chunk
          report := { st.report with
            inserted_rows := st.report.inserted_rows + chunk.rows.length
            successful_chunks := st.report.successful_chunks + 1 } }, .ok) := by
  simp only [tryInsertChunk]
  rw [stageChunk_eq_some _ _ hpn hcl]
  simp only [ho, Bool.false_eq_true, if_false, hte, if_true]
  simp only [register_chunk_metadata, hhash, Bool.false_eq_true, if_false]
  rw [stagedRows_length _ _ hpn hcl]
  simp [List.nil_append]

theorem chunkRetryLoop_dupStep (oracle : Oracle) (input : RunInput) (chunk : DataFrame)
    (idx : Nat) (st : EngineState)
    (ho : oracle idx 0 = false)
    (hhash : hashPresent st.metadata input.fileHash = true)
    (hte : st.tableExists = true)
    (hpn : (chunk.colIndex "player_name").isSome)
    (hcl : (chunk.colIndex "club").isSome) :
    chunkRetryLoop oracle input chunk idx maxRetries 0 st =
      ({ st with players := create_ids st.players chunk
                 report := { st.report with duplicate_imported_rows := true } }, none) := by
  show chunkRetryLoop oracle input chunk idx (2 + 1) 0 st = _
  rw [chunkRetryLoop, tryInsertChunk_dup oracle input chunk idx 0 st ho hhash hte hpn hcl]

theorem chunkRetryLoop_firstStep (oracle : Oracle) (input : RunInput) (chunk : DataFrame)
    (idx : Nat) (st : EngineState)
    (ho : oracle idx 0 = false)
    (hhash : hashPresent st.metadata input.fileHash = false)
    (hte : st.tableExists = false)
    (hpn : (chunk.colIndex "player_name").isSome)
    (hcl : (chunk.colIndex "club").isSome) :
    chunkRetryLoop oracle input chunk idx maxRetries 0 st =
      ({ st with
          metadata := st.metadata ++
            [{ filename := input.csvPath, file_hash := input.fileHash
               row_count := chunk.rows.length
               column_names := chunk.cols.map (fun c => c.name) }]
          players := create_ids st.players chunk
          tableExists := true
          tableSchemaDuck := chunk.cols.map (fun c => (c.name, pandasToDuck c.dtype))
            ++ [("player_id", "INTEGER")]
          tableRows := stagedRows (create_ids st.players chunk) chunk
          report := { st.report with
            inserted_rows := st.report.inserted_rows + chunk.rows.length
            successful_chunks := st.report.successful_chunks + 1 } }, none) := by
  show chunkRetryLoop oracle input chunk idx (2 + 1) 0 st = _
  rw [chunkRetryLoop, tryInsertChunk_first oracle input chunk idx 0 st ho hhash hte hpn hcl]

/-- Once the file hash is in the ledger and the target table exists,
every remaining chunk takes the `AlreadyImportedError` path: the loop
finishes with no error, inserts nothing, registers nothing, increments
no chunk counters, and only marks the duplicate-rows flag. -/
theorem chunkLoop_allDup (oracle : Oracle) (input : RunInput)
    (schema : List (String × String)) (lastChunk : Nat)
    (chunks : List DataFrame) (idx : Nat) (st : EngineState)
    (ho : ∀ i rc, oracle i rc = false)
    (hle : lastChunk ≤ idx)
    (hhash : hashPresent st.metadata input.fileHash = true)
    (hte : st.tableExists = true)
    (hv : ∀ c ∈ chunks, validateChunkAgainstSchema c schema 0 = none)
    (hstage : ∀ c ∈ chunks, (c.colIndex "player_name").isSome ∧ (c.colIndex "club").isSome) :
    (chunkLoop oracle input schema lastChunk chunks idx st).2 = none ∧
    (chunkLoop oracle input schema lastChunk chunks idx st).1.metadata = st.metadata ∧
    (chunkLoop oracle input schema lastChunk chunks idx st).1.tableRows = st.tableRows ∧
    (chunkLoop oracle input schema lastChunk chunks idx st).1.tableExists = true ∧
    (chunkLoop oracle input schema lastChunk chunks idx st).1.report.inserted_rows
      = st.report.inserted_rows ∧
    (chunkLoop oracle input schema lastChunk chunks idx st).1.report.successful_chunks
      = st.report.successful_chunks ∧
    (chunkLoop oracle input schema lastChunk chunks idx st).1.report.failed_chunks
      = st.report.failed_chunks ∧
    (chunkLoop oracle input schema lastChunk chunks idx st).1.report.errors
      = st.report.errors ∧
    (chunkLoop oracle input schema lastChunk chunks idx st).1.warnLog = st.warnLog ∧
    (chunkLoop oracle input schema lastChunk chunks idx st).1.report.duplicate_imported_rows
      = (st.report.duplicate_imported_rows || !chunks.isEmpty) := by
  induction chunks generalizing idx st with
  | nil => simp [chunkLoop, hte]
  | cons c cs ih =>
      have hnl : ¬ idx < lastChunk := Nat.not_lt.mpr hle
      have hvc : validateChunkAgainstSchema c schema idx = none :=
        validate_none_of_none c schema 0 idx (hv c (List.mem_cons_self _ _))
      simp only [chunkLoop, hnl, if_false, hvc]
      rw [chunkRetryLoop_dupStep oracle input c idx
        { st with validateLog := st.validateLog ++ [idx] } (ho idx 0) hhash hte
        (hstage c (List.mem_cons_self _ _)).1 (hstage c (List.mem_cons_self _ _)).2]
      have ihr := ih (idx + 1)
        { st with
            players := create_ids st.players c
            validateLog := st.validateLog ++ [idx]
            progress := some idx
            report := { st.report with duplicate_imported_rows := true } }
        (le_trans hle (Nat.le_succ _))
        hhash hte
        (fun d hd => hv d (List.mem_cons_of_mem _ hd))
        (fun d hd => hstage d (List.mem_cons_of_mem _ hd))
      simp only at ihr ⊢
      obtain ⟨h1, h2, h3, h4, h5, h6, h7, h8, h9, h10⟩ := ihr
      refine ⟨h1, ?_, ?_, h4, ?_, ?_, ?_, ?_, ?_, ?_⟩
      · rw [h2]
      · rw [h3]
      · rw [h5]
      · rw [h6]
      · rw [h7]
      · rw [h8]
      · rw [h9]
      · rw [h10]
        simp

/-! ## C5 — the encoding check is an empty function -/

/-- C5: the claim is the documented intent (`_validate_chunk_encoding`'s
docstring promises a `ValueError` for unencodable strings), but the
function body is empty, so a chunk holding a cell that UTF-8 cannot
represent passes validation and all of its rows — the unencodable cell
included — are inserted into the target table, with no error raised. -/
theorem C5_code_bug :
    utf8Representable (Value.str [0xD800]) = false ∧
    validateChunkEncoding surrogateDf "utf-8" = () ∧
    c5run.2 = none ∧
    c5run.1.report.inserted_rows = 2 ∧
    c5run.1.report.errors = [] ∧
    Value.str [0xD800] ∈ c5run.1.tableRows.flatten := by decide

/-! ## C1 — duplicate import short-circuit raises -/

/-- C1 counterexample: re-running over an already-registered hash sets
the duplicate flag but the run then aborts with an exception that
propagates out of `ingest_data` to the caller — not a successful,
non-error completion as the claim states.  The exception is in fact a
`TypeError`: line 62 calls `AlreadyImportedError("CSV already
imported.")`, but the exception class defines `__init__(self)` with no
message parameter, so the construction itself fails. -/
theorem C1_counterexample :
    (runIngestor noFailures sampleInput dupState).2 = some .typeError ∧
    (runIngestor noFailures sampleInput dupState).1.report.duplicate_import = true := by
  decide

/-- C1 (amended): when the file's content hash is already registered, the
run sets the report's duplicate flag, performs no chunk work (chunk and
row statistics, logs, target table, ledger and player store are all left
untouched) and terminates exceptionally: line 62's
`AlreadyImportedError("CSV already imported.")` raises `TypeError` while
constructing the exception (its `__init__` takes no message argument),
and that `TypeError` propagates to the caller uncaught. -/
theorem C1_duplicate_run (oracle : Oracle) (input : RunInput) (st : EngineState)
    (h : hashPresent st.metadata input.fileHash = true) :
    (runIngestor oracle input st).2 = some .typeError ∧
    (runIngestor oracle input st).1.report.duplicate_import = true ∧
    (runIngestor oracle input st).1.report.successful_chunks = st.report.successful_chunks ∧
    (runIngestor oracle input st).1.report.failed_chunks = st.report.failed_chunks ∧
    (runIngestor oracle input st).1.report.total_chunks = st.report.total_chunks ∧
    (runIngestor oracle input st).1.report.inserted_rows = st.report.inserted_rows ∧
    (runIngestor oracle input st).1.tableRows = st.tableRows ∧
    (runIngestor oracle input st).1.metadata = st.metadata ∧
    (runIngestor oracle input st).1.players = st.players ∧
    (runIngestor oracle input st).1.warnLog = st.warnLog ∧
    (runIngestor oracle input st).1.validateLog = st.validateLog := by
  simp [runIngestor, ingest_chunks_in_db, h]

/-- C1 witness: the amended theorem applied to the concrete duplicate
store. -/
theorem C1_duplicate_run_witness :
    hashPresent dupState.metadata sampleInput.fileHash = true ∧
    (runIngestor noFailures sampleInput dupState).1.report.duplicate_import = true :=
  ⟨by decide, (C1_duplicate_run noFailures sampleInput dupState (by decide)).2.1⟩

/-! ## C2 — the checkpoint is removed on every exit path -/

/-- C2: the claim matches the documented intent (resume after failure),
but `__exit__` removes the progress file unconditionally on every exit
path.  Concretely: a fresh run whose first chunk fails all three
attempts leaves the engine with checkpoint `0` at the moment the fatal
error is raised, yet after the context manager exits the checkpoint file
is gone — and the duplicate short-circuit path loses it as well — so no
subsequent run can resume from it. -/
theorem C2_code_bug :
    (ingest_chunks_in_db allFailures sampleInput freshState).1.progress = some 0 ∧
    (ingest_chunks_in_db allFailures sampleInput freshState).2 =
      some (.runtimeError "Failed to insert chunk 1 after 3 attempts") ∧
    (runIngestor allFailures sampleInput freshState).1.progress = none ∧
    (runIngestor noFailures sampleInput dupState).1.progress = none := by decide

/-! ## C3 — exhausted retries -/

/-- C3 counterexample: a chunk whose staging fails on all three attempts
is logged three times with its try numbers, but validation runs exactly
once for that chunk — before the retry loop — not once per attempt as the
claim states. -/
theorem C3_counterexample :
    (ingest_chunks_in_db allFailures sampleInput freshState).1.warnLog
      = [(1, 1), (1, 2), (1, 3)] ∧
    (ingest_chunks_in_db allFailures sampleInput freshState).1.validateLog = [0] ∧
    ¬ (ingest_chunks_in_db allFailures sampleInput freshState).1.validateLog.length = 3 := by
  decide

/-- C3 (amended): for a run resuming at checkpoint k whose chunk k fails
its staging/merge deterministically on every attempt, the engine makes
exactly 3 attempts, each logged with its attempt number (validation ran
once per chunk, before the retry loop; key resolution and staging are
redone each attempt); after the third failure exactly one error entry
{module, chunk index, message} is appended, failed_chunks is
incremented, a fatal `RuntimeError` is raised with no further chunk
attempted, nothing is inserted, and the checkpoint still holds k at the
moment the error propagates (the context-manager exit later deletes the
file — that is C2's defect). -/
theorem C3_retry_exhaustion (oracle : Oracle) (input : RunInput) (st : EngineState)
    (k : Nat)
    (hC : 0 < input.chunkSize)
    (hnodup : (input.df.cols.map (fun c => c.name)).Nodup)
    (hte : st.tableExists = false)
    (hprog : st.progress = some k)
    (hk : k < chunksTotal input.df.rows.length input.chunkSize)
    (hdup : hashPresent st.metadata input.fileHash = false)
    (hfail : ∀ rc, oracle k rc = true) :
    ingest_chunks_in_db oracle input st =
      ({ st with
          progress := some k
          players := create_ids (create_ids (create_ids st.players
            (engineChunk input k)) (engineChunk input k)) (engineChunk input k)
          validateLog := st.validateLog ++ [k]
          warnLog := st.warnLog ++ [(k + 1, 1), (k + 1, 2), (k + 1, 3)]
          report := { st.report with
            total_chunks := chunksTotal input.df.rows.length input.chunkSize
            total_rows := input.df.rows.length
            successful_chunks := st.report.successful_chunks + k
            errors := st.report.errors ++ [failEntry k]
            failed_chunks := st.report.failed_chunks + 1 } },
        some (.runtimeError (failMsg k))) := by
  have hkl : k < (engineChunkList input).length := by
    rw [engineChunkList_length input hC]
    exact hk
  rw [ingest_unfold oracle input st hdup hte, hprog]
  simp only [Option.getD_some]
  have hsplit : engineChunkList input =
      (engineChunkList input).take k
        ++ (engineChunk input k :: (engineChunkList input).drop (k + 1)) := by
    conv_lhs => rw [← List.take_append_drop k (engineChunkList input)]
    rw [List.drop_eq_getElem_cons hkl, engineChunk, List.getD_eq_getElem _ _ hkl]
  rw [hsplit]
  have htk : ((engineChunkList input).take k).length = k := by
    rw [List.length_take]
    exact min_eq_left (le_of_lt hkl)
  have hle : 0 + ((engineChunkList input).take k).length ≤ k := by
    rw [htk]
    omega
  rw [chunkLoop_skip oracle input (getCsvSchema input) k _ _ 0 _ hle, htk]
  simp only [Nat.zero_add]
  have hv : validateChunkAgainstSchema (engineChunk input k) (getCsvSchema input) k = none :=
    engineChunk_validate input k k hkl hnodup
  simp only [chunkLoop, lt_self_iff_false, if_false, hv]
  rw [chunkRetryLoop_allFail oracle input (engineChunk input k) k _ hfail]

/-- C3 witness: the amended theorem applied to the concrete always-failing
run resuming at checkpoint 0. -/
theorem C3_retry_exhaustion_witness :
    0 < sampleInput.chunkSize ∧
    (ingest_chunks_in_db allFailures sampleInput resumeState).2
      = some (.runtimeError (failMsg 0)) ∧
    (ingest_chunks_in_db allFailures sampleInput resumeState).1.progress = some 0 :=
  ⟨by decide,
    by rw [C3_retry_exhaustion allFailures sampleInput resumeState 0 (by decide)
      (by decide) rfl rfl (by decide) (by decide) (fun _ => rfl)],
    by rw [C3_retry_exhaustion allFailures sampleInput resumeState 0 (by decide)
      (by decide) rfl rfl (by decide) (by decide) (fun _ => rfl)]⟩

/-! ## C9 — only the first chunk's rows are ever inserted -/

set_option maxHeartbeats 2000000 in
/-- C9: in a failure-free fresh run whose dataset splits into more than
one chunk, the per-chunk metadata registration succeeds only for chunk 0
(exactly one ledger record is appended, carrying chunk 0's row count);
for every later chunk the registration raises `AlreadyImportedError`,
which the engine treats as success without executing the insert — so the
run ends without error, the target table holds exactly chunk 0's staged
rows, inserted rows and successful_chunks grow only by chunk 0's
contribution, and the duplicate-rows flag is set. -/
theorem C9_first_chunk_only (oracle : Oracle) (input : RunInput) (st : EngineState)
    (ho : ∀ i rc, oracle i rc = false)
    (hC : 0 < input.chunkSize)
    (h2 : 1 < chunksTotal input.df.rows.length input.chunkSize)
    (hnodup : (input.df.cols.map (fun c => c.name)).Nodup)
    (hte : st.tableExists = false)
    (hprog : st.progress = none)
    (hdup : hashPresent st.metadata input.fileHash = false)
    (hpn : ((dropSerialIfPresent input.df).colIndex "player_name").isSome)
    (hcl : ((dropSerialIfPresent input.df).colIndex "club").isSome) :
    (ingest_chunks_in_db oracle input st).2 = none ∧
    (ingest_chunks_in_db oracle input st).1.metadata = st.metadata ++
      [{ filename := input.csvPath, file_hash := input.fileHash
         row_count := (engineChunk input 0).rows.length
         column_names := (engineChunk input 0).cols.map (fun c => c.name) }] ∧
    (ingest_chunks_in_db oracle input st).1.report.successful_chunks
      = st.report.successful_chunks + 1 ∧
    (ingest_chunks_in_db oracle input st).1.report.inserted_rows
      = st.report.inserted_rows + (engineChunk input 0).rows.length ∧
    (ingest_chunks_in_db oracle input st).1.tableRows
      = stagedRows (create_ids st.players (engineChunk input 0)) (engineChunk input 0) ∧
    (ingest_chunks_in_db oracle input st).1.tableRows.length
      = (engineChunk input 0).rows.length ∧
    (ingest_chunks_in_db oracle input st).1.report.duplicate_imported_rows = true ∧
    (ingest_chunks_in_db oracle input st).1.report.failed_chunks = st.report.failed_chunks ∧
    (ingest_chunks_in_db oracle input st).1.report.errors = st.report.errors ∧
    (ingest_chunks_in_db oracle input st).1.warnLog = st.warnLog := by
  have hkl0 : 0 < (engineChunkList input).length := by
    rw [engineChunkList_length input hC]
    omega
  have hsplit : engineChunkList input =
      engineChunk input 0 :: (engineChunkList input).drop 1 := by
    conv_lhs => rw [← List.drop_zero (engineChunkList input)]
    rw [List.drop_eq_getElem_cons hkl0, engineChunk, List.getD_eq_getElem _ _ hkl0]
  have hc0mem : engineChunk input 0 ∈ engineChunkList input := by
    rw [hsplit]
    exact List.mem_cons_self _ _
  have hpn0 : ((engineChunk input 0).colIndex "player_name").isSome := by
    rw [engineChunkList_colIndex input _ hc0mem]
    exact hpn
  have hcl0 : ((engineChunk input 0).colIndex "club").isSome := by
    rw [engineChunkList_colIndex input _ hc0mem]
    exact hcl
  have hv0 : validateChunkAgainstSchema (engineChunk input 0) (getCsvSchema input) 0 = none :=
    engineChunkList_validate input hnodup _ hc0mem 0
  have hrest : ((engineChunkList input).drop 1).isEmpty = false := by
    rw [List.isEmpty_eq_false_iff_exists_mem]
    have hlen : ((engineChunkList input).drop 1).length > 0 := by
      rw [List.length_drop, engineChunkList_length input hC]
      omega
    exact List.exists_mem_of_length_pos hlen
  rw [ingest_unfold oracle input st hdup hte, hprog]
  simp only [Option.getD_none]
  rw [hsplit]
  simp only [chunkLoop, lt_self_iff_false, if_false, hv0]
  rw [chunkRetryLoop_firstStep oracle input (engineChunk input 0) 0
    { st with
        progress := some 0
        report := { st.report with
          total_chunks := chunksTotal input.df.rows.length input.chunkSize
          total_rows := input.df.rows.length }
        validateLog := st.validateLog ++ [0] } (ho 0 0) hdup hte hpn0 hcl0]
  simp only
  have hAll := chunkLoop_allDup oracle input (getCsvSchema input) 0
    ((engineChunkList input).drop 1) 1
    { st with
        metadata := st.metadata ++
          [{ filename := input.csvPath, file_hash := input.fileHash
             row_count := (engineChunk input 0).rows.length
             column_names := (engineChunk input 0).cols.map (fun c => c.name) }]
        players := create_ids st.players (engineChunk input 0)
        tableExists := true
        tableSchemaDuck := (engineChunk input 0).cols.map
          (fun c => (c.name, pandasToDuck c.dtype)) ++ [("player_id", "INTEGER")]
        tableRows := stagedRows (create_ids st.players (engineChunk input 0)) (engineChunk input 0)
        progress := some 0
        validateLog := st.validateLog ++ [0]
        report := { st.report with
          total_chunks := chunksTotal input.df.rows.length input.chunkSize
          total_rows := input.df.rows.length
          inserted_rows := st.report.inserted_rows + (engineChunk input 0).rows.length
          successful_chunks := st.report.successful_chunks + 1 } }
    ho (by omega)
    (hashPresent_append_one st.metadata _ input.fileHash rfl)
    rfl
    (fun d hd => engineChunkList_validate input hnodup d
      (by rw [hsplit]; exact List.mem_cons_of_mem _ hd) 0)
    (fun d hd => by
      constructor
      · rw [engineChunkList_colIndex input d (by rw [hsplit]; exact List.mem_cons_of_mem _ hd)]
        exact hpn
      · rw [engineChunkList_colIndex input d (by rw [hsplit]; exact List.mem_cons_of_mem _ hd)]
        exact hcl)
  obtain ⟨g1, g2, g3, g4, g5, g6, g7, g8, g9, g10⟩ := hAll
  refine ⟨g1, ?_, ?_, ?_, ?_, ?_, ?_, ?_, ?_, ?_⟩
  · exact g2
  · exact g6
  · exact g5
  · exact g3
  · rw [g3]
    exact stagedRows_length _ _ hpn0 hcl0
  · rw [g10]
    rw [hrest]
    simp
  · exact g7
  · exact g8
  · exact g9

/-- C9 witness: the theorem applied to the concrete 5-row, 2-chunk run:
only chunk 0's 3 rows are inserted, the run ends without error, and the
duplicate-rows flag is set. -/
theorem C9_first_chunk_only_witness :
    1 < chunksTotal sampleInput.df.rows.length sampleInput.chunkSize ∧
    (ingest_chunks_in_db noFailures sampleInput freshState).2 = none ∧
    (ingest_chunks_in_db noFailures sampleInput freshState).1.report.duplicate_imported_rows
      = true ∧
    (ingest_chunks_in_db noFailures sampleInput freshState).1.report.successful_chunks
      = freshState.report.successful_chunks + 1 :=
  ⟨by decide,
    (C9_first_chunk_only noFailures sampleInput freshState (fun _ _ => rfl) (by decide)
      (by decide) (by decide) rfl rfl (by decide) (by decide) (by decide)).1,
    (C9_first_chunk_only noFailures sampleInput freshState (fun _ _ => rfl) (by decide)
      (by decide) (by decide) rfl rfl (by decide) (by decide) (by decide)).2.2.2.2.2.2.1,
    (C9_first_chunk_only noFailures sampleInput freshState (fun _ _ => rfl) (by decide)
      (by decide) (by decide) rfl rfl (by decide) (by decide) (by decide)).2.2.1⟩

end UCL
